import Mathlib

/-!
Verification of myaws: remote session orchestration (`myaws/ec2_ssh.go`) and
reserved-instance listing (`myaws/ec2ri_ls.go`).

A shallow embedding of the Go code.  Every call that leaves the process (the
environment, the file system, the instance directory, the ssh and terminal
libraries, the client's standard output) is answered by a `World` and recorded
as an `Event`; a Go function becomes a Lean function returning its result
together with the events it emitted, in program order.
-/

namespace Myaws

/-! ## Errors and results -/

/-- An `error` value produced by a library (os, ssh, terminal). -/
structure LibError where
  msg : String
  deriving DecidableEq

/-- Go `error` values as the code builds them with `github.com/pkg/errors`. -/
inductive GoError where
  | lib (e : LibError)
  | Errorf (msg : String)
  | Wrap (cause : GoError) (msg : String)
  deriving DecidableEq

/-- The `Error()` text: `Wrap` renders as `msg + ": " + cause.Error()`. -/
def GoError.Error : GoError → String
  | .lib e => e.msg
  | .Errorf msg => msg
  | .Wrap cause msg => msg ++ ": " ++ cause.Error

/-- Outcome of a Go call: a value, a returned `error`, or a run-time panic. -/
inductive Result (α : Type) where
  | ok (a : α)
  | err (e : GoError)
  | panic (msg : String)
  deriving DecidableEq

/-- Text of the run-time panic raised by dereferencing a nil pointer or calling a nil func. -/
def nilDeref : String := "runtime error: invalid memory address or nil pointer dereference"

/-! ## Data model -/

/-- The fields of `ec2.Instance` the code reads; each is a `*string`. -/
structure Instance where
  InstanceId : Option String
  PublicIpAddress : Option String
  PrivateIpAddress : Option String
  deriving DecidableEq

/-- Options of the SSH command (`EC2SSHOptions`). -/
structure EC2SSHOptions where
  FilterTag : String
  LoginName : String
  IdentityFile : String
  Private : Bool
  Command : String
  deriving DecidableEq

/-- A parsed private key (`ssh.Signer`). -/
structure Signer where
  key : String
  deriving DecidableEq

/-- Authentication methods of `ssh.ClientConfig`. -/
inductive AuthMethod where
  | PublicKeys (signer : Signer)
  deriving DecidableEq

/-- Host key policies of `ssh.ClientConfig`. -/
inductive HostKeyCallback where
  | InsecureIgnoreHostKey
  deriving DecidableEq

/-- The fields of `ssh.ClientConfig` the code sets. -/
structure ClientConfig where
  User : String
  Auth : List AuthMethod
  HostKeyCallback : HostKeyCallback
  deriving DecidableEq

/-- Handle of an ssh connection (`*ssh.Client`). -/
abbrev Conn := Nat
/-- Handle of an ssh session (`*ssh.Session`). -/
abbrev Sess := Nat
/-- Handle of a session pipe. -/
abbrev Pipe := Nat
/-- A terminal mode snapshot (`*terminal.State`). -/
abbrev TermState := Nat
/-- The `ssh.TerminalModes` map, as opcode/value pairs. -/
abbrev TerminalModes := List (Nat × Nat)

/-- Opcode `ssh.ECHO`. -/
def ECHO : Nat := 53
/-- Opcode `ssh.TTY_OP_ISPEED`. -/
def TTY_OP_ISPEED : Nat := 128
/-- Opcode `ssh.TTY_OP_OSPEED`. -/
def TTY_OP_OSPEED : Nat := 129

/-- End points of the byte-copy goroutines. -/
inductive Stream where
  | osStdin
  | osStdout
  | osStderr
  | pipe (p : Pipe)
  deriving DecidableEq

/-- Calls that leave the process, in the order the program makes them.  Calls
whose result the code discards (`Wait`, both `Close`s, `Restore`) carry the
discarded result. -/
inductive Event where
  | Getenv (key : String)
  | ReadFile (name : String)
  | ParsePrivateKey (pem : String)
  | FindEC2Instances (filterTag : String) (all : Bool)
  | Dial (network addr : String) (config : ClientConfig)
  | NewSession (c : Conn)
  | MakeRaw (fd : Int)
  | GetSize (fd : Int)
  | RequestPty (s : Sess) (term : String) (h w : Int) (modes : TerminalModes)
  | StdinPipe (s : Sess)
  | StdoutPipe (s : Sess)
  | StderrPipe (s : Sess)
  | GoCopy (dst src : Stream)
  | Shell (s : Sess)
  | Wait (s : Sess) (r : Option LibError)
  | CombinedOutput (s : Sess) (cmd : String)
  | Stdout (text : String)
  | SessionClose (s : Sess) (r : Option LibError)
  | ConnClose (c : Conn) (r : Option LibError)
  | Restore (fd : Int) (oldState : TermState) (r : Option LibError)
  deriving DecidableEq

/-- Answers of the ssh and terminal libraries during one connection attempt.
A connection attempt opens at most one connection and one session, so the
answers of calls on those handles are not indexed by the handle. -/
structure SSHWorld where
  Dial : String → String → ClientConfig → Except LibError Conn
  NewSession : Except LibError Sess
  MakeRaw : Int → Except LibError TermState
  GetSize : Int → Int × Int × Option LibError
  RequestPty : String → Int → Int → TerminalModes → Option LibError
  StdinPipe : Except LibError Pipe
  StdoutPipe : Except LibError Pipe
  StderrPipe : Except LibError Pipe
  Shell : Option LibError
  Wait : Option LibError
  CombinedOutput : String → String × Option LibError
  Restore : Int → TermState → Option LibError
  SessionClose : Option LibError
  ConnClose : Option LibError

/-- Answers of everything outside the program during one run.  `ssh n` answers
the `n`-th connection attempt of the run (counted from 0).
`FindEC2Instances` is the client's instance directory method, which is declared
outside `ec2_ssh.go` and is taken as a parameter here. -/
structure World where
  Getenv : String → String
  ReadFile : String → Except LibError String
  ParsePrivateKey : String → Except LibError Signer
  StdinFd : Int
  FindEC2Instances : String → Bool → Except GoError (List Instance)
  ssh : Nat → SSHWorld

/-! ## `strings.Replace(s, old, new, 1)` -/

/-- Replace the first occurrence of the non-empty `old` in `s` by `new`. -/
def replaceFirstChars (old new : List Char) : List Char → List Char
  | [] => []
  | c :: cs =>
    if old.isPrefixOf (c :: cs) then new ++ (c :: cs).drop old.length
    else c :: replaceFirstChars old new cs

/-- Go `strings.Replace(s, old, new, 1)` for a non-empty `old`. -/
def stringsReplaceOnce (s old new : String) : String :=
  String.mk (replaceFirstChars old.data new.data s.data)

/-! ## `ec2_ssh.go` -/

/-- The function `resolveEC2PrivateIPAddress`. -/
def resolveEC2PrivateIPAddress (inst : Instance) : Result String :=
  match inst.PrivateIpAddress with
  | none =>
    match inst.InstanceId with
    | none => .panic nilDeref
    | some id => .err (.Errorf ("no private ip address: " ++ id))
  | some a => .ok a

/-- The function `resolveEC2PublicIPAddress`. -/
def resolveEC2PublicIPAddress (inst : Instance) : Result String :=
  match inst.PublicIpAddress with
  | none =>
    match inst.InstanceId with
    | none => .panic nilDeref
    | some id => .err (.Errorf ("no public ip address: " ++ id))
  | some a => .ok a

/-- The function `resolveEC2IPAddress`. -/
def resolveEC2IPAddress (inst : Instance) (isPrivate : Bool) : Result String :=
  if isPrivate then resolveEC2PrivateIPAddress inst
  else resolveEC2PublicIPAddress inst

/-- The function `buildSSHConfig`. -/
def buildSSHConfig (w : World) (loginName identityFile : String) :
    Result ClientConfig × List Event :=
  let normalizedIdentityFile := stringsReplaceOnce identityFile "~" (w.Getenv "HOME")
  let tr := [Event.Getenv "HOME", Event.ReadFile normalizedIdentityFile]
  match w.ReadFile normalizedIdentityFile with
  | .error e => (.err (.Wrap (.lib e) "unable to read private key:"), tr)
  | .ok key =>
    let tr := tr ++ [Event.ParsePrivateKey key]
    match w.ParsePrivateKey key with
    | .error e => (.err (.Wrap (.lib e) "unable to parse private key:"), tr)
    | .ok signer =>
      (.ok { User := loginName
             Auth := [AuthMethod.PublicKeys signer]
             HostKeyCallback := HostKeyCallback.InsecureIgnoreHostKey }, tr)

/-- The function `buildSSHSessionPipe`; each `go io.Copy(dst, src)` is the event
`GoCopy dst src` that starts the pump. -/
def buildSSHSessionPipe (sw : SSHWorld) (session : Sess) : Result Unit × List Event :=
  let tr := [Event.StdinPipe session]
  match sw.StdinPipe with
  | .error e => (.err (.Wrap (.lib e) "unable to setup stdin for session:"), tr)
  | .ok stdin =>
    let tr := tr ++ [Event.GoCopy (.pipe stdin) .osStdin, Event.StdoutPipe session]
    match sw.StdoutPipe with
    | .error e => (.err (.Wrap (.lib e) "unable to setup stdout for session:"), tr)
    | .ok stdout =>
      let tr := tr ++ [Event.GoCopy .osStdout (.pipe stdout), Event.StderrPipe session]
      match sw.StderrPipe with
      | .error e => (.err (.Wrap (.lib e) "unable to setup stderr for session:"), tr)
      | .ok stderr =>
        (.ok (), tr ++ [Event.GoCopy .osStderr (.pipe stderr)])

/-- Body of `startSSHSessionWithTerminal`: result, events emitted, and the
deferred calls registered so far, most recent first. -/
def startSSHSessionWithTerminal.body (sw : SSHWorld) (stdinFd : Int)
    (hostname port : String) (config : ClientConfig) :
    Result Unit × List Event × List Event :=
  let addr := hostname ++ ":" ++ port
  let tr := [Event.Dial "tcp" addr config]
  match sw.Dial "tcp" addr config with
  | .error e => (.err (.Wrap (.lib e) "unable to connect:"), tr, [])
  | .ok connection =>
    let deferred := [Event.ConnClose connection sw.ConnClose]
    let tr := tr ++ [Event.NewSession connection]
    match sw.NewSession with
    | .error e => (.err (.Wrap (.lib e) "unable to new session failed:"), tr, deferred)
    | .ok session =>
      let deferred := Event.SessionClose session sw.SessionClose :: deferred
      let modes : TerminalModes := [(ECHO, 1), (TTY_OP_ISPEED, 14400), (TTY_OP_OSPEED, 14400)]
      let fd := stdinFd
      let tr := tr ++ [Event.MakeRaw fd]
      match sw.MakeRaw fd with
      | .error e => (.err (.Wrap (.lib e) "unable to put terminal in Raw Mode:"), tr, deferred)
      | .ok oldState =>
        let deferred := Event.Restore fd oldState (sw.Restore fd oldState) :: deferred
        let width := (sw.GetSize fd).1
        let height := (sw.GetSize fd).2.1
        let tr := tr ++ [Event.GetSize fd, Event.RequestPty session "xterm" height width modes]
        match sw.RequestPty "xterm" height width modes with
        | some e => (.err (.Wrap (.lib e) "request for pseudo terminal failed:"), tr, deferred)
        | none =>
          match buildSSHSessionPipe sw session with
          | (.err e, ev) => (.err e, tr ++ ev, deferred)
          | (.panic m, ev) => (.panic m, tr ++ ev, deferred)
          | (.ok (), ev) =>
            let tr := tr ++ ev ++ [Event.Shell session]
            match sw.Shell with
            | some e => (.err (.Wrap (.lib e) "failed to start shell:"), tr, deferred)
            | none =>
              let tr := tr ++ [Event.Wait session sw.Wait]
              (.ok (), tr, deferred)

/-- The function `startSSHSessionWithTerminal`: the body, then the deferred
calls in last-in-first-out order. -/
def startSSHSessionWithTerminal (sw : SSHWorld) (stdinFd : Int)
    (hostname port : String) (config : ClientConfig) : Result Unit × List Event :=
  let out := startSSHSessionWithTerminal.body sw stdinFd hostname port config
  (out.1, out.2.1 ++ out.2.2)

/-- Body of `executeSSHCommand`: result, events emitted, and the deferred calls
registered so far, most recent first. -/
def executeSSHCommand.body (sw : SSHWorld) (stdinFd : Int)
    (hostname port : String) (config : ClientConfig) (command : String) :
    Result Unit × List Event × List Event :=
  let addr := hostname ++ ":" ++ port
  let tr := [Event.Dial "tcp" addr config]
  match sw.Dial "tcp" addr config with
  | .error e => (.err (.Wrap (.lib e) "unable to connect:"), tr, [])
  | .ok connection =>
    let deferred := [Event.ConnClose connection sw.ConnClose]
    let tr := tr ++ [Event.NewSession connection]
    match sw.NewSession with
    | .error e => (.err (.Wrap (.lib e) "unable to new session failed:"), tr, deferred)
    | .ok session =>
      let deferred := Event.SessionClose session sw.SessionClose :: deferred
      let fd := stdinFd
      let width := (sw.GetSize fd).1
      let height := (sw.GetSize fd).2.1
      let tr := tr ++ [Event.GetSize fd, Event.RequestPty session "xterm" height width []]
      match sw.RequestPty "xterm" height width [] with
      | some e => (.err (.Wrap (.lib e) "request for pseudo terminal failed:"), tr, deferred)
      | none =>
        let out := (sw.CombinedOutput command).1
        let err := (sw.CombinedOutput command).2
        let tr := tr ++ [Event.CombinedOutput session command,
          Event.Stdout ("========== Start output on host: " ++ hostname ++ " ==========\n"),
          Event.Stdout (out ++ "\n"),
          Event.Stdout ("========== End   output on host: " ++ hostname ++ " ==========\n")]
        match err with
        | some e => (.err (.Wrap (.lib e) ("failed to execute command: " ++ command)), tr, deferred)
        | none => (.ok (), tr, deferred)

/-- The function `executeSSHCommand`: the body, then the deferred calls in
last-in-first-out order. -/
def executeSSHCommand (sw : SSHWorld) (stdinFd : Int)
    (hostname port : String) (config : ClientConfig) (command : String) :
    Result Unit × List Event :=
  let out := executeSSHCommand.body sw stdinFd hostname port config command
  (out.1, out.2.1 ++ out.2.2)

/-- The loop `for _, instance := range instances` of `EC2SSH`, with the
`hostnames` collected so far. -/
def EC2SSH.resolveLoop (isPrivate : Bool) : List Instance → List String → Result (List String)
  | [], hostnames => .ok hostnames
  | inst :: rest, hostnames =>
    match resolveEC2IPAddress inst isPrivate with
    | .err e => .err e
    | .panic m => .panic m
    | .ok hostname => EC2SSH.resolveLoop isPrivate rest (hostnames ++ [hostname])

/-- The loop `for _, hostname := range hostnames` of `EC2SSH`; `n` counts the
connection attempts made so far in the run. -/
def EC2SSH.executeLoop (w : World) (config : ClientConfig) (command : String) :
    List String → Nat → Result Unit × List Event
  | [], _ => (.ok (), [])
  | hostname :: rest, n =>
    match executeSSHCommand (w.ssh n) w.StdinFd hostname "22" config command with
    | (.err e, ev) => (.err e, ev)
    | (.panic m, ev) => (.panic m, ev)
    | (.ok (), ev) =>
      ((EC2SSH.executeLoop w config command rest (n + 1)).1,
        ev ++ (EC2SSH.executeLoop w config command rest (n + 1)).2)

/-- The method `EC2SSH`. -/
def EC2SSH (w : World) (options : EC2SSHOptions) : Result Unit × List Event :=
  match buildSSHConfig w options.LoginName options.IdentityFile with
  | (.err e, tr) => (.err e, tr)
  | (.panic m, tr) => (.panic m, tr)
  | (.ok config, tr) =>
    let tr := tr ++ [Event.FindEC2Instances options.FilterTag false]
    match w.FindEC2Instances options.FilterTag false with
    | .error e => (.err e, tr)
    | .ok instances =>
      if instances.length = 0 then
        (.err (.Errorf ("no such instance: " ++ options.FilterTag)), tr)
      else if instances.length ≥ 2 ∧ options.Command = "" then
        (.err (.Errorf "multiple instances found"), tr)
      else
        match EC2SSH.resolveLoop options.Private instances [] with
        | .err e => (.err e, tr)
        | .panic m => (.panic m, tr)
        | .ok hostnames =>
          if options.Command = "" then
            match hostnames with
            | [] => (.panic "runtime error: index out of range [0] with length 0", tr)
            | hostname :: _ =>
              ((startSSHSessionWithTerminal (w.ssh 0) w.StdinFd hostname "22" config).1,
                tr ++ (startSSHSessionWithTerminal (w.ssh 0) w.StdinFd hostname "22" config).2)
          else
            ((EC2SSH.executeLoop w config options.Command hostnames 0).1,
              tr ++ (EC2SSH.executeLoop w config options.Command hostnames 0).2)

/-! ## `ec2ri_ls.go` -/

/-- An instant (`time.Time`). -/
structure Time where
  unix : Int
  deriving DecidableEq

/-- The fields of `ec2.ReservedInstances` the formatters read; each is a pointer. -/
structure ReservedInstances where
  ReservedInstancesId : Option String
  AvailabilityZone : Option String
  InstanceType : Option String
  InstanceCount : Option Int
  State : Option String
  Scope : Option String
  Start : Option Time
  End : Option Time
  Duration : Option Int
  deriving DecidableEq

/-- Options of the reserved-instance listing (`EC2RILsOptions`). -/
structure EC2RILsOptions where
  All : Bool
  Quiet : Bool
  Fields : List String
  deriving DecidableEq

/-- The myaws client, with the settings `newClient` passes to it; its streams
and its instance directory are part of `World`.  The formatters ignore it. -/
structure Client where
  profile : String
  region : String
  timezone : String
  humanize : Bool
  debug : Bool
  deriving DecidableEq

/-- Type of the values of the `formatFuncs` map. -/
abbrev Formatter := Client → EC2RILsOptions → ReservedInstances → Result String

/-- Go `fmt.Sprintf("%<width>d", n)`: decimal, padded with blanks on the left. -/
def sprintfPadInt (width : Nat) (n : Int) : String :=
  String.mk (List.replicate (width - (toString n).length) ' ') ++ toString n

/-- The function `formatEC2ReservedInstanceID`. -/
def formatEC2ReservedInstanceID : Formatter := fun _ _ inst =>
  match inst.ReservedInstancesId with
  | none => .panic nilDeref
  | some v => .ok v

/-- The function `formatEC2RIAvailabilityZone`. -/
def formatEC2RIAvailabilityZone : Formatter := fun _ _ inst =>
  match inst.AvailabilityZone with
  | some v => .ok v
  | none => .ok "N/A"

/-- The function `formatEC2RIInstanceType`. -/
def formatEC2RIInstanceType : Formatter := fun _ _ inst =>
  match inst.InstanceType with
  | none => .panic nilDeref
  | some v => .ok v

/-- The function `formatEC2RIInstanceCount`. -/
def formatEC2RIInstanceCount : Formatter := fun _ _ inst =>
  match inst.InstanceCount with
  | none => .panic nilDeref
  | some n => .ok (sprintfPadInt 3 n)

/-- The function `formatEC2RIState`. -/
def formatEC2RIState : Formatter := fun _ _ inst =>
  match inst.State with
  | none => .panic nilDeref
  | some v => .ok v

/-- The function `formatEC2RIScope`. -/
def formatEC2RIScope : Formatter := fun _ _ inst =>
  match inst.Scope with
  | none => .panic nilDeref
  | some v => .ok v

/-- The function `formatEC2RIStart`; `timeFormat t layout` stands for the
library method `t.Format(layout)`. -/
def formatEC2RIStart (timeFormat : Time → String → String) : Formatter := fun _ _ inst =>
  match inst.Start with
  | none => .panic nilDeref
  | some t => .ok (timeFormat t "2006-01-02")

/-- The function `formatEC2RIEnd`. -/
def formatEC2RIEnd (timeFormat : Time → String → String) : Formatter := fun _ _ inst =>
  match inst.End with
  | none => .panic nilDeref
  | some t => .ok (timeFormat t "2006-01-02")

/-- The function `formatEC2RIDuration`; Go integer division truncates. -/
def formatEC2RIDuration : Formatter := fun _ _ inst =>
  match inst.Duration with
  | none => .panic nilDeref
  | some d => .ok (sprintfPadInt 2 (d.tdiv (3600 * 24 * 365)) ++ "year")

/-- The map literal `formatFuncs` of `formatEC2RIInstance`. -/
def formatFuncs (timeFormat : Time → String → String) : List (String × Formatter) :=
  [("ReservedInstancesId", formatEC2ReservedInstanceID),
   ("AvailabilityZone", formatEC2RIAvailabilityZone),
   ("InstanceType", formatEC2RIInstanceType),
   ("InstanceCount", formatEC2RIInstanceCount),
   ("State", formatEC2RIState),
   ("Scope", formatEC2RIScope),
   ("Start", formatEC2RIStart timeFormat),
   ("End", formatEC2RIEnd timeFormat),
   ("Duration", formatEC2RIDuration)]

/-- The loop `for _, field := range outputFields` of `formatEC2RIInstance`, with
the `output` collected so far.  A key missing from the map yields a nil func,
and calling it panics. -/
def formatEC2RIInstance.loop (timeFormat : Time → String → String) (client : Client)
    (options : EC2RILsOptions) (inst : ReservedInstances) :
    List String → List String → Result (List String)
  | [], output => .ok output
  | field :: rest, output =>
    match (formatFuncs timeFormat).lookup field with
    | none => .panic nilDeref
    | some f =>
      match f client options inst with
      | .err e => .err e
      | .panic m => .panic m
      | .ok value =>
        formatEC2RIInstance.loop timeFormat client options inst rest (output ++ [value])

/-- The function `formatEC2RIInstance`. -/
def formatEC2RIInstance (timeFormat : Time → String → String) (client : Client)
    (options : EC2RILsOptions) (inst : ReservedInstances) : Result String :=
  let outputFields := if options.Quiet then ["InstanceId"] else options.Fields
  match formatEC2RIInstance.loop timeFormat client options inst outputFields [] with
  | .err e => .err e
  | .panic m => .panic m
  | .ok output => .ok (String.intercalate "\t" output)

/-! ## Vocabulary of the statements -/

/-- The address field the request selects on an instance. -/
def selectedAddress (inst : Instance) (isPrivate : Bool) : Option String :=
  if isPrivate then inst.PrivateIpAddress else inst.PublicIpAddress

/-- Text of the error for an instance `id` without the requested address. -/
def missingAddress (isPrivate : Bool) (id : String) : GoError :=
  .Errorf ((if isPrivate then "no private ip address: " else "no public ip address: ") ++ id)

/-- The identity file is read as `key` and parses as `signer`. -/
def IdentityLoads (w : World) (options : EC2SSHOptions) (key : String) (signer : Signer) : Prop :=
  w.ReadFile (stringsReplaceOnce options.IdentityFile "~" (w.Getenv "HOME")) = .ok key ∧
    w.ParsePrivateKey key = .ok signer

/-- The configuration built for a login name and a signer. -/
def sshConfig (loginName : String) (signer : Signer) : ClientConfig :=
  { User := loginName
    Auth := [AuthMethod.PublicKeys signer]
    HostKeyCallback := HostKeyCallback.InsecureIgnoreHostKey }

/-- Events of a run up to and including the instance directory call. -/
def preamble (w : World) (options : EC2SSHOptions) (key : String) : List Event :=
  [Event.Getenv "HOME",
   Event.ReadFile (stringsReplaceOnce options.IdentityFile "~" (w.Getenv "HOME")),
   Event.ParsePrivateKey key,
   Event.FindEC2Instances options.FilterTag false]

/-- Calls on the ssh library: dialing, and everything done on a connection or session. -/
def Event.isNetwork : Event → Bool
  | .Dial _ _ _ => true
  | .NewSession _ => true
  | .RequestPty _ _ _ _ _ => true
  | .StdinPipe _ => true
  | .StdoutPipe _ => true
  | .StderrPipe _ => true
  | .GoCopy _ _ => true
  | .Shell _ => true
  | .Wait _ _ => true
  | .CombinedOutput _ _ => true
  | .SessionClose _ _ => true
  | .ConnClose _ _ => true
  | _ => false

/-- Calls that change the mode of the local terminal. -/
def Event.isTerminalMode : Event → Bool
  | .MakeRaw _ => true
  | .Restore _ _ _ => true
  | _ => false

/-- Calls only the batch executor makes. -/
def Event.isBatch : Event → Bool
  | .CombinedOutput _ _ => true
  | .Stdout _ => true
  | _ => false

/-- Whether the event is a `terminal.Restore` call. -/
def Event.isRestore : Event → Bool
  | .Restore _ _ _ => true
  | _ => false

/-- The address of a dial. -/
def Event.dialAddr : Event → Option String
  | .Dial _ addr _ => some addr
  | _ => none

/-- The text of a write to the client's standard output. -/
def Event.stdoutText : Event → Option String
  | .Stdout text => some text
  | _ => none

/-- Addresses dialed during a run, in order. -/
def dialAddrs (tr : List Event) : List String := tr.filterMap Event.dialAddr

/-- Writes to the client's standard output during a run, in order. -/
def stdoutWrites (tr : List Event) : List String := tr.filterMap Event.stdoutText

/-- Concatenation of texts, in order. -/
def concatAll : List String → String
  | [] => ""
  | s :: rest => s ++ concatAll rest

/-- Everything written to the client's standard output during a run. -/
def stdoutText (tr : List Event) : String := concatAll (stdoutWrites tr)

/-- Steps in the life of connections. -/
inductive ConnStep where
  | dial (addr : String)
  | close
  deriving DecidableEq

/-- The connection step an event takes, if any. -/
def Event.connStep : Event → Option ConnStep
  | .Dial _ addr _ => some (.dial addr)
  | .ConnClose _ _ => some .close
  | _ => none

/-- Teardown steps of a session. -/
inductive Teardown where
  | sessionClose
  | connClose
  | restoreTerminal
  deriving DecidableEq

/-- The teardown step an event takes, if any. -/
def Event.teardown : Event → Option Teardown
  | .SessionClose _ _ => some .sessionClose
  | .ConnClose _ _ => some .connClose
  | .Restore _ _ _ => some .restoreTerminal
  | _ => none

/-- Teardown steps of a run, in order. -/
def teardownOrder (tr : List Event) : List Teardown := tr.filterMap Event.teardown

/-- The start banner, captured output line and end banner of one host. -/
def hostBlock (host out : String) : String :=
  "========== Start output on host: " ++ host ++ " ==========\n" ++ (out ++ "\n") ++
    "========== End   output on host: " ++ host ++ " ==========\n"

/-- Connecting, opening a session and requesting the batch pty all succeed. -/
def BatchConnects (sw : SSHWorld) (fd : Int) (hostname : String) (config : ClientConfig) : Prop :=
  (∃ c, sw.Dial "tcp" (hostname ++ ":" ++ "22") config = .ok c) ∧ (∃ s, sw.NewSession = .ok s) ∧
    sw.RequestPty "xterm" (sw.GetSize fd).2.1 (sw.GetSize fd).1 [] = none

/-- The connection and the command of one host both succeed. -/
def BatchSucceeds (sw : SSHWorld) (fd : Int) (hostname : String) (config : ClientConfig)
    (command : String) : Prop :=
  BatchConnects sw fd hostname config ∧ (sw.CombinedOutput command).2 = none

/-- The terminal modes the interactive driver requests. -/
def interactiveModes : TerminalModes :=
  [(ECHO, 1), (TTY_OP_ISPEED, 14400), (TTY_OP_OSPEED, 14400)]

/-- The rest of `EC2SSH` (from `if len(instances) == 0` on) once the identity
file has loaded and the instance directory has answered, with the events `tr`
emitted so far. -/
def EC2SSH.afterFind (w : World) (options : EC2SSHOptions) (config : ClientConfig)
    (instances : List Instance) (tr : List Event) : Result Unit × List Event :=
  if instances.length = 0 then
    (.err (.Errorf ("no such instance: " ++ options.FilterTag)), tr)
  else if instances.length ≥ 2 ∧ options.Command = "" then
    (.err (.Errorf "multiple instances found"), tr)
  else
    match EC2SSH.resolveLoop options.Private instances [] with
    | .err e => (.err e, tr)
    | .panic m => (.panic m, tr)
    | .ok hostnames =>
      if options.Command = "" then
        match hostnames with
        | [] => (.panic "runtime error: index out of range [0] with length 0", tr)
        | hostname :: _ =>
          ((startSSHSessionWithTerminal (w.ssh 0) w.StdinFd hostname "22" config).1,
            tr ++ (startSSHSessionWithTerminal (w.ssh 0) w.StdinFd hostname "22" config).2)
      else
        ((EC2SSH.executeLoop w config options.Command hostnames 0).1,
          tr ++ (EC2SSH.executeLoop w config options.Command hostnames 0).2)

/-- No byte-copy pump is started before a pty request: scan of a run, where
`seen` tells whether a pty request has been met. -/
def ptyBeforePumps : Bool → List Event → Bool
  | _, [] => true
  | _, .RequestPty _ _ _ _ _ :: rest => ptyBeforePumps true rest
  | seen, .GoCopy _ _ :: rest => seen && ptyBeforePumps seen rest
  | seen, _ :: rest => ptyBeforePumps seen rest

/-- Standard output expected of a batch run over `hosts` whose first
connection attempt is the `n`-th of the run: one block per host, in order. -/
def batchOutput (w : World) (command : String) : List String → Nat → String
  | [], _ => ""
  | host :: rest, n =>
    hostBlock host ((w.ssh n).CombinedOutput command).1 ++ batchOutput w command rest (n + 1)

/-! ## Concrete worlds -/

/-- A connection attempt in which every step succeeds, the remote shell ends
with a non-zero status, the command prints `out` and ends with `cmdErr`, and
restoring the terminal fails. -/
def exampleSSH (c s : Nat) (out : String) (cmdErr : Option LibError) : SSHWorld where
  Dial := fun _ _ _ => .ok c
  NewSession := .ok s
  MakeRaw := fun _ => .ok 7
  GetSize := fun _ => (80, 24, none)
  RequestPty := fun _ _ _ _ => none
  StdinPipe := .ok 1
  StdoutPipe := .ok 2
  StderrPipe := .ok 3
  Shell := none
  Wait := some ⟨"Process exited with status 1"⟩
  CombinedOutput := fun _ => (out, cmdErr)
  Restore := fun _ _ => some ⟨"inappropriate ioctl for device"⟩
  SessionClose := none
  ConnClose := none

/-- As `exampleSSH`, but the pty request is refused. -/
def ptyRefused (c s : Nat) : SSHWorld :=
  { exampleSSH c s "" none with RequestPty := fun _ _ _ _ => some ⟨"pty allocation request failed"⟩ }

/-- A client for the default profile. -/
def exampleClient : Client :=
  { profile := "default", region := "us-east-1", timezone := "Local", humanize := true,
    debug := false }

/-- A reserved-instance record with every field present. -/
def exampleRI : ReservedInstances :=
  { ReservedInstancesId := some "ri-1", AvailabilityZone := none, InstanceType := some "t3.micro",
    InstanceCount := some 2, State := some "active", Scope := some "Region",
    Start := some ⟨1700000000⟩, End := some ⟨1731536000⟩, Duration := some 31536000 }

/-- A stand-in for `time.Time.Format` that prints the seconds of the instant. -/
def exampleTimeFormat : Time → String → String := fun t _ => toString t.unix

/-- The nine keys of `formatFuncs`. -/
def formatKeys : List String :=
  ["ReservedInstancesId", "AvailabilityZone", "InstanceType", "InstanceCount", "State", "Scope",
   "Start", "End", "Duration"]

/-- A world with home directory `/home/u`, a readable key, the given instance
directory and connection attempts. -/
def exampleWorld (insts : List Instance) (ssh : Nat → SSHWorld) : World where
  Getenv := fun _ => "/home/u"
  ReadFile := fun _ => .ok "PEM"
  ParsePrivateKey := fun k => .ok ⟨k⟩
  StdinFd := 0
  FindEC2Instances := fun _ _ => .ok insts
  ssh := ssh

/-- Connection attempts that all succeed and print `up`. -/
def allUp : Nat → SSHWorld := fun n => exampleSSH (10 + n) (20 + n) "up" none

/-- Connection attempts of which the second one's command fails. -/
def secondFails : Nat → SSHWorld := fun n =>
  exampleSSH (10 + n) (20 + n) (if n = 1 then "sh: uptime: not found" else "up")
    (if n = 1 then some ⟨"Process exited with status 127"⟩ else none)

/-- An instance with both addresses. -/
def instBoth (id pub priv : String) : Instance :=
  { InstanceId := some id, PublicIpAddress := some pub, PrivateIpAddress := some priv }

/-- An instance with a private address only. -/
def instPrivateOnly (id priv : String) : Instance :=
  { InstanceId := some id, PublicIpAddress := none, PrivateIpAddress := some priv }

/-- A request for the tag `web` as `ec2-user` with the default identity file. -/
def exampleOptions (isPrivate : Bool) (command : String) : EC2SSHOptions :=
  { FilterTag := "web", LoginName := "ec2-user", IdentityFile := "~/.ssh/id_rsa",
    Private := isPrivate, Command := command }

/-! ## Auxiliary lemmas -/

theorem buildSSHConfig_of_loads (w : World) (options : EC2SSHOptions) (key : String)
    (signer : Signer) (hload : IdentityLoads w options key signer) :
    buildSSHConfig w options.LoginName options.IdentityFile =
      (.ok (sshConfig options.LoginName signer),
        [Event.Getenv "HOME",
         Event.ReadFile (stringsReplaceOnce options.IdentityFile "~" (w.Getenv "HOME")),
         Event.ParsePrivateKey key]) := by
  obtain ⟨hread, hparse⟩ := hload
  simp [buildSSHConfig, hread, hparse, sshConfig]

theorem EC2SSH_eq_afterFind (w : World) (options : EC2SSHOptions) (key : String)
    (signer : Signer) (instances : List Instance)
    (hload : IdentityLoads w options key signer)
    (hfind : w.FindEC2Instances options.FilterTag false = .ok instances) :
    EC2SSH w options =
      EC2SSH.afterFind w options (sshConfig options.LoginName signer) instances
        (preamble w options key) := by
  unfold EC2SSH
  rw [buildSSHConfig_of_loads w options key signer hload]
  simp only [hfind, EC2SSH.afterFind, preamble, List.cons_append, List.nil_append]

theorem preamble_quiet (w : World) (options : EC2SSHOptions) (key : String) :
    ∀ ev ∈ preamble w options key,
      ev.isNetwork = false ∧ ev.isTerminalMode = false ∧ ev.isBatch = false := by
  intro ev hev
  simp only [preamble, List.mem_cons, List.mem_singleton, List.not_mem_nil, or_false] at hev
  rcases hev with h | h | h | h <;> subst h <;> simp [Event.isNetwork, Event.isTerminalMode, Event.isBatch]

/-- C1: with an empty command, a loaded identity file and two or more
instances returned by the directory (whatever their address fields), `EC2SSH`
returns the error "multiple instances found", and the run consists of the four
preamble calls only: no dial, no session call, no terminal-mode change. -/
theorem EC2SSH_ambiguous_target (w : World) (options : EC2SSHOptions) (key : String)
    (signer : Signer) (instances : List Instance)
    (hcmd : options.Command = "")
    (hload : IdentityLoads w options key signer)
    (hfind : w.FindEC2Instances options.FilterTag false = .ok instances)
    (hlen : 2 ≤ instances.length) :
    EC2SSH w options = (.err (.Errorf "multiple instances found"), preamble w options key) ∧
      (GoError.Errorf "multiple instances found").Error = "multiple instances found" ∧
      ∀ ev ∈ (EC2SSH w options).2, ev.isNetwork = false ∧ ev.isTerminalMode = false := by
  have hrun : EC2SSH w options =
      (.err (.Errorf "multiple instances found"), preamble w options key) := by
    rw [EC2SSH_eq_afterFind w options key signer instances hload hfind]
    have h0 : ¬ instances.length = 0 := by omega
    simp [EC2SSH.afterFind, h0, hlen, hcmd]
  refine ⟨hrun, rfl, ?_⟩
  rw [hrun]
  intro ev hev
  exact ⟨(preamble_quiet w options key ev hev).1, (preamble_quiet w options key ev hev).2.1⟩

theorem EC2SSH_ambiguous_target_witness :
    EC2SSH (exampleWorld [instBoth "i-1" "203.0.113.5" "10.0.0.5", instPrivateOnly "i-2" "10.0.0.6"] allUp)
        (exampleOptions false "") =
      (.err (.Errorf "multiple instances found"),
        [Event.Getenv "HOME", Event.ReadFile "/home/u/.ssh/id_rsa", Event.ParsePrivateKey "PEM",
         Event.FindEC2Instances "web" false]) :=
  (EC2SSH_ambiguous_target
    (exampleWorld [instBoth "i-1" "203.0.113.5" "10.0.0.5", instPrivateOnly "i-2" "10.0.0.6"] allUp)
    (exampleOptions false "") "PEM" ⟨"PEM"⟩
    [instBoth "i-1" "203.0.113.5" "10.0.0.5", instPrivateOnly "i-2" "10.0.0.6"]
    rfl ⟨rfl, rfl⟩ rfl (by decide)).1

/-- C2: for every filter tag and every command, when the identity file loads
and the directory returns no instance, `EC2SSH` returns the error
"no such instance: <filter tag>", and the run consists of the four preamble
calls only: no dial and no session call. -/
theorem EC2SSH_no_match (w : World) (options : EC2SSHOptions) (key : String)
    (signer : Signer)
    (hload : IdentityLoads w options key signer)
    (hfind : w.FindEC2Instances options.FilterTag false = .ok []) :
    EC2SSH w options =
        (.err (.Errorf ("no such instance: " ++ options.FilterTag)), preamble w options key) ∧
      (GoError.Errorf ("no such instance: " ++ options.FilterTag)).Error =
        "no such instance: " ++ options.FilterTag ∧
      ∀ ev ∈ (EC2SSH w options).2, ev.isNetwork = false := by
  have hrun : EC2SSH w options =
      (.err (.Errorf ("no such instance: " ++ options.FilterTag)), preamble w options key) := by
    rw [EC2SSH_eq_afterFind w options key signer [] hload hfind]
    simp [EC2SSH.afterFind]
  refine ⟨hrun, rfl, ?_⟩
  rw [hrun]
  intro ev hev
  exact (preamble_quiet w options key ev hev).1

theorem EC2SSH_no_match_witness :
    EC2SSH (exampleWorld [] allUp) (exampleOptions false "uptime") =
      (.err (.Errorf "no such instance: web"),
        [Event.Getenv "HOME", Event.ReadFile "/home/u/.ssh/id_rsa", Event.ParsePrivateKey "PEM",
         Event.FindEC2Instances "web" false]) :=
  (EC2SSH_no_match (exampleWorld [] allUp) (exampleOptions false "uptime") "PEM" ⟨"PEM"⟩
    ⟨rfl, rfl⟩ rfl).1

theorem resolveEC2IPAddress_eq (inst : Instance) (isPrivate : Bool) :
    resolveEC2IPAddress inst isPrivate =
      match selectedAddress inst isPrivate with
      | some a => .ok a
      | none =>
        match inst.InstanceId with
        | none => .panic nilDeref
        | some id => .err (missingAddress isPrivate id) := by
  cases isPrivate <;>
    simp [resolveEC2IPAddress, resolveEC2PrivateIPAddress, resolveEC2PublicIPAddress,
      selectedAddress, missingAddress] <;>
    split <;> simp_all

theorem resolveLoop_missing (isPrivate : Bool) (bad : Instance) (id : String)
    (hid : bad.InstanceId = some id) :
    ∀ (instances : List Instance) (hostnames : List String),
      instances.find? (fun i => (selectedAddress i isPrivate).isNone) = some bad →
      EC2SSH.resolveLoop isPrivate instances hostnames = .err (missingAddress isPrivate id) := by
  intro instances
  induction instances with
  | nil => intro _ h; simp at h
  | cons inst rest ih =>
    intro hostnames h
    rw [EC2SSH.resolveLoop, resolveEC2IPAddress_eq]
    cases ha : selectedAddress inst isPrivate with
    | none =>
      have hb : inst = bad := by simpa [List.find?, ha] using h
      simp [hb, hid]
    | some a =>
      have hrest : rest.find? (fun i => (selectedAddress i isPrivate).isNone) = some bad := by
        simpa [List.find?, ha] using h
      simpa using ih (hostnames ++ [a]) hrest

theorem resolveLoop_all (isPrivate : Bool) :
    ∀ (instances : List Instance) (hosts hostnames : List String),
      instances.map (fun i => selectedAddress i isPrivate) = hosts.map some →
      EC2SSH.resolveLoop isPrivate instances hostnames = .ok (hostnames ++ hosts) := by
  intro instances
  induction instances with
  | nil =>
    intro hosts hostnames h
    cases hosts with
    | nil => simp [EC2SSH.resolveLoop]
    | cons a t => simp at h
  | cons inst rest ih =>
    intro hosts hostnames h
    cases hosts with
    | nil => simp at h
    | cons a t =>
      simp only [List.map_cons, List.cons.injEq] at h
      rw [EC2SSH.resolveLoop, resolveEC2IPAddress_eq, h.1]
      simpa using ih t (hostnames ++ [a]) h.2

/-- C3: in the batch path (command present), when the identity file loads and
the directory returns a list whose first instance without the requested
address is `bad`, with instance id `id`, `EC2SSH` returns the error
"no public ip address: <id>" (or "no private ip address: <id>" when the private
address is requested), and the run consists of the four preamble calls only:
no address is dialed, whatever addresses the instances before and after `bad`
have. -/
theorem EC2SSH_missing_address (w : World) (options : EC2SSHOptions) (key : String)
    (signer : Signer) (instances : List Instance) (bad : Instance) (id : String)
    (hcmd : options.Command ≠ "")
    (hload : IdentityLoads w options key signer)
    (hfind : w.FindEC2Instances options.FilterTag false = .ok instances)
    (hbad : instances.find? (fun i => (selectedAddress i options.Private).isNone) = some bad)
    (hid : bad.InstanceId = some id) :
    EC2SSH w options = (.err (missingAddress options.Private id), preamble w options key) ∧
      (missingAddress options.Private id).Error =
        (if options.Private then "no private ip address: " else "no public ip address: ") ++ id ∧
      dialAddrs (EC2SSH w options).2 = [] ∧
      ∀ ev ∈ (EC2SSH w options).2, ev.isNetwork = false := by
  have hne : ¬ instances.length = 0 := by
    intro h0
    have : instances = [] := List.length_eq_zero.mp h0
    simp [this] at hbad
  have hrun : EC2SSH w options =
      (.err (missingAddress options.Private id), preamble w options key) := by
    rw [EC2SSH_eq_afterFind w options key signer instances hload hfind]
    simp [EC2SSH.afterFind, hne, hcmd,
      resolveLoop_missing options.Private bad id hid instances [] hbad]
  refine ⟨hrun, rfl, ?_, ?_⟩
  · rw [hrun]; rfl
  · rw [hrun]
    intro ev hev
    exact (preamble_quiet w options key ev hev).1

theorem EC2SSH_missing_address_witness :
    EC2SSH
        (exampleWorld [instBoth "i-1" "203.0.113.5" "10.0.0.5", instPrivateOnly "i-2" "10.0.0.6",
          instBoth "i-3" "203.0.113.7" "10.0.0.7"] allUp)
        (exampleOptions false "uptime") =
      (.err (.Errorf "no public ip address: i-2"),
        [Event.Getenv "HOME", Event.ReadFile "/home/u/.ssh/id_rsa", Event.ParsePrivateKey "PEM",
         Event.FindEC2Instances "web" false]) :=
  (EC2SSH_missing_address
    (exampleWorld [instBoth "i-1" "203.0.113.5" "10.0.0.5", instPrivateOnly "i-2" "10.0.0.6",
      instBoth "i-3" "203.0.113.7" "10.0.0.7"] allUp)
    (exampleOptions false "uptime") "PEM" ⟨"PEM"⟩
    [instBoth "i-1" "203.0.113.5" "10.0.0.5", instPrivateOnly "i-2" "10.0.0.6",
      instBoth "i-3" "203.0.113.7" "10.0.0.7"]
    (instPrivateOnly "i-2" "10.0.0.6") "i-2"
    (by decide) ⟨rfl, rfl⟩ rfl (by decide) rfl).1

theorem addr_port (hostname : String) : hostname ++ ":" ++ "22" = hostname ++ ":22" := by
  rw [String.append_assoc]; rfl

theorem concatAll_append (xs ys : List String) :
    concatAll (xs ++ ys) = concatAll xs ++ concatAll ys := by
  induction xs with
  | nil => simp [concatAll]
  | cons x rest ih => simp [concatAll, ih, String.append_assoc]

theorem stdoutText_append (xs ys : List Event) :
    stdoutText (xs ++ ys) = stdoutText xs ++ stdoutText ys := by
  simp [stdoutText, stdoutWrites, List.filterMap_append, concatAll_append]

theorem dialAddrs_append (xs ys : List Event) :
    dialAddrs (xs ++ ys) = dialAddrs xs ++ dialAddrs ys := by
  simp [dialAddrs, List.filterMap_append]

theorem stdoutWrites_append (xs ys : List Event) :
    stdoutWrites (xs ++ ys) = stdoutWrites xs ++ stdoutWrites ys := by
  simp [stdoutWrites, List.filterMap_append]

theorem preamble_projections (w : World) (options : EC2SSHOptions) (key : String) :
    dialAddrs (preamble w options key) = [] ∧ stdoutWrites (preamble w options key) = [] ∧
      stdoutText (preamble w options key) = "" ∧
      (preamble w options key).filterMap Event.connStep = [] := by
  refine ⟨rfl, rfl, rfl, rfl⟩

/-- Events of one batch connection attempt that reaches the command. -/
theorem executeSSHCommand_of_connects (sw : SSHWorld) (fd : Int) (hostname : String)
    (config : ClientConfig) (command : String) (c : Conn) (s : Sess)
    (hd : sw.Dial "tcp" (hostname ++ ":" ++ "22") config = .ok c)
    (hs : sw.NewSession = .ok s)
    (hp : sw.RequestPty "xterm" (sw.GetSize fd).2.1 (sw.GetSize fd).1 [] = none) :
    executeSSHCommand sw fd hostname "22" config command =
      ((match (sw.CombinedOutput command).2 with
        | some e => .err (.Wrap (.lib e) ("failed to execute command: " ++ command))
        | none => .ok ()),
       [Event.Dial "tcp" (hostname ++ ":22") config, Event.NewSession c, Event.GetSize fd,
        Event.RequestPty s "xterm" (sw.GetSize fd).2.1 (sw.GetSize fd).1 [],
        Event.CombinedOutput s command,
        Event.Stdout ("========== Start output on host: " ++ hostname ++ " ==========\n"),
        Event.Stdout ((sw.CombinedOutput command).1 ++ "\n"),
        Event.Stdout ("========== End   output on host: " ++ hostname ++ " ==========\n"),
        Event.SessionClose s sw.SessionClose, Event.ConnClose c sw.ConnClose]) := by
  simp only [executeSSHCommand, executeSSHCommand.body, hd, hs, hp, ← addr_port]
  cases (sw.CombinedOutput command).2 <;> rfl

theorem hostBlock_eq (host out : String) :
    concatAll ["========== Start output on host: " ++ host ++ " ==========\n", out ++ "\n",
      "========== End   output on host: " ++ host ++ " ==========\n"] = hostBlock host out := by
  simp only [concatAll, hostBlock, String.append_assoc, String.append_empty]

/-- One batch connection attempt that reaches the command: result and what the
run shows of it. -/
theorem executeSSHCommand_projections (sw : SSHWorld) (fd : Int) (hostname : String)
    (config : ClientConfig) (command : String)
    (h : BatchConnects sw fd hostname config) :
    (executeSSHCommand sw fd hostname "22" config command).1 =
        (match (sw.CombinedOutput command).2 with
          | some e => .err (.Wrap (.lib e) ("failed to execute command: " ++ command))
          | none => .ok ()) ∧
      dialAddrs (executeSSHCommand sw fd hostname "22" config command).2 = [hostname ++ ":22"] ∧
      (executeSSHCommand sw fd hostname "22" config command).2.filterMap Event.connStep =
        [.dial (hostname ++ ":22"), .close] ∧
      stdoutWrites (executeSSHCommand sw fd hostname "22" config command).2 =
        ["========== Start output on host: " ++ hostname ++ " ==========\n",
         (sw.CombinedOutput command).1 ++ "\n",
         "========== End   output on host: " ++ hostname ++ " ==========\n"] ∧
      stdoutText (executeSSHCommand sw fd hostname "22" config command).2 =
        hostBlock hostname (sw.CombinedOutput command).1 := by
  obtain ⟨⟨c, hd⟩, ⟨s, hs⟩, hp⟩ := h
  rw [executeSSHCommand_of_connects sw fd hostname config command c s hd hs hp]
  refine ⟨rfl, rfl, rfl, rfl, ?_⟩
  rw [← hostBlock_eq]
  rfl

theorem executeLoop_cons_ok (w : World) (config : ClientConfig) (command : String)
    (hostname : String) (rest : List String) (n : Nat)
    (h : (executeSSHCommand (w.ssh n) w.StdinFd hostname "22" config command).1 = .ok ()) :
    EC2SSH.executeLoop w config command (hostname :: rest) n =
      ((EC2SSH.executeLoop w config command rest (n + 1)).1,
        (executeSSHCommand (w.ssh n) w.StdinFd hostname "22" config command).2 ++
          (EC2SSH.executeLoop w config command rest (n + 1)).2) := by
  rw [EC2SSH.executeLoop]
  rcases hrun : executeSSHCommand (w.ssh n) w.StdinFd hostname "22" config command with ⟨r, ev⟩
  rw [hrun] at h
  simp only at h
  subst h
  rfl

theorem executeLoop_cons_err (w : World) (config : ClientConfig) (command : String)
    (hostname : String) (rest : List String) (n : Nat) (e : GoError)
    (h : (executeSSHCommand (w.ssh n) w.StdinFd hostname "22" config command).1 = .err e) :
    EC2SSH.executeLoop w config command (hostname :: rest) n =
      (.err e, (executeSSHCommand (w.ssh n) w.StdinFd hostname "22" config command).2) := by
  rw [EC2SSH.executeLoop]
  rcases hrun : executeSSHCommand (w.ssh n) w.StdinFd hostname "22" config command with ⟨r, ev⟩
  rw [hrun] at h
  simp only at h
  subst h
  rfl

theorem executeLoop_success (w : World) (config : ClientConfig) (command : String) :
    ∀ (hosts : List String) (n : Nat),
      (∀ k h, hosts[k]? = some h → BatchSucceeds (w.ssh (n + k)) w.StdinFd h config command) →
      (EC2SSH.executeLoop w config command hosts n).1 = .ok () ∧
        dialAddrs (EC2SSH.executeLoop w config command hosts n).2 =
          hosts.map (fun h => h ++ ":22") ∧
        (EC2SSH.executeLoop w config command hosts n).2.filterMap Event.connStep =
          hosts.flatMap (fun h => [ConnStep.dial (h ++ ":22"), ConnStep.close]) ∧
        stdoutText (EC2SSH.executeLoop w config command hosts n).2 =
          batchOutput w command hosts n := by
  intro hosts
  induction hosts with
  | nil => intro n _; exact ⟨rfl, rfl, rfl, rfl⟩
  | cons host rest ih =>
    intro n hall
    have h0 : BatchSucceeds (w.ssh n) w.StdinFd host config command := by
      simpa using hall 0 host (by simp)
    have hrest := ih (n + 1) (by
      intro k h hk
      have := hall (k + 1) h (by simpa using hk)
      simpa [Nat.add_assoc, Nat.add_comm 1 k] using this)
    obtain ⟨hr, hd, hc, ho⟩ := hrest
    obtain ⟨p1, p2, p3, _, p5⟩ := executeSSHCommand_projections (w.ssh n) w.StdinFd host config
      command h0.1
    have hres : (executeSSHCommand (w.ssh n) w.StdinFd host "22" config command).1 = .ok () := by
      rw [p1, h0.2]
    rw [executeLoop_cons_ok w config command host rest n hres]
    refine ⟨hr, ?_, ?_, ?_⟩
    · simp [dialAddrs_append, p2, hd]
    · simp [List.filterMap_append, p3, hc]
    · simp [stdoutText_append, p5, ho, batchOutput]

theorem EC2SSH_batch_eq (w : World) (options : EC2SSHOptions) (key : String)
    (signer : Signer) (instances : List Instance) (hosts : List String)
    (hcmd : options.Command ≠ "")
    (hload : IdentityLoads w options key signer)
    (hfind : w.FindEC2Instances options.FilterTag false = .ok instances)
    (hne : instances ≠ [])
    (hres : instances.map (fun i => selectedAddress i options.Private) = hosts.map some) :
    EC2SSH w options =
      ((EC2SSH.executeLoop w (sshConfig options.LoginName signer) options.Command hosts 0).1,
        preamble w options key ++
          (EC2SSH.executeLoop w (sshConfig options.LoginName signer) options.Command hosts 0).2) := by
  have h0 : ¬ instances.length = 0 := by
    intro h; exact hne (List.length_eq_zero.mp h)
  rw [EC2SSH_eq_afterFind w options key signer instances hload hfind]
  simp [EC2SSH.afterFind, h0, hcmd, resolveLoop_all options.Private instances hosts [] hres]

/-- C5: for a non-empty instance list whose instances all have the requested
address (`hosts`, in the directory's order) and a non-empty command, when the
connection and the command of every host succeed, `EC2SSH` returns success, the
addresses dialed are the hosts at port 22 in that order, each connection is
closed before the next is dialed, and the text written to standard output is
exactly the concatenation, in that order, of one start-banner / output line /
end-banner block per host. -/
theorem EC2SSH_batch_success (w : World) (options : EC2SSHOptions) (key : String)
    (signer : Signer) (instances : List Instance) (hosts : List String)
    (hcmd : options.Command ≠ "")
    (hload : IdentityLoads w options key signer)
    (hfind : w.FindEC2Instances options.FilterTag false = .ok instances)
    (hne : instances ≠ [])
    (hres : instances.map (fun i => selectedAddress i options.Private) = hosts.map some)
    (hok : ∀ n h, hosts[n]? = some h →
      BatchSucceeds (w.ssh n) w.StdinFd h (sshConfig options.LoginName signer) options.Command) :
    (EC2SSH w options).1 = .ok () ∧
      dialAddrs (EC2SSH w options).2 = hosts.map (fun h => h ++ ":22") ∧
      (EC2SSH w options).2.filterMap Event.connStep =
        hosts.flatMap (fun h => [ConnStep.dial (h ++ ":22"), ConnStep.close]) ∧
      stdoutText (EC2SSH w options).2 = batchOutput w options.Command hosts 0 := by
  rw [EC2SSH_batch_eq w options key signer instances hosts hcmd hload hfind hne hres]
  obtain ⟨hr, hd, hc, ho⟩ := executeLoop_success w (sshConfig options.LoginName signer)
    options.Command hosts 0 (by simpa using hok)
  obtain ⟨q1, _, q3, q4⟩ := preamble_projections w options key
  refine ⟨hr, ?_, ?_, ?_⟩
  · simp only [dialAddrs_append, q1, hd, List.nil_append]
  · simp only [List.filterMap_append, q4, hc, List.nil_append]
  · simp only [stdoutText_append, q3, ho, String.empty_append]

theorem EC2SSH_batch_success_witness :
    (EC2SSH (exampleWorld [instBoth "i-1" "203.0.113.5" "10.0.0.5",
        instBoth "i-2" "203.0.113.6" "10.0.0.6"] allUp) (exampleOptions false "uptime")).1 = .ok () ∧
      dialAddrs (EC2SSH (exampleWorld [instBoth "i-1" "203.0.113.5" "10.0.0.5",
        instBoth "i-2" "203.0.113.6" "10.0.0.6"] allUp) (exampleOptions false "uptime")).2 =
        ["203.0.113.5:22", "203.0.113.6:22"] ∧
      (EC2SSH (exampleWorld [instBoth "i-1" "203.0.113.5" "10.0.0.5",
        instBoth "i-2" "203.0.113.6" "10.0.0.6"] allUp)
          (exampleOptions false "uptime")).2.filterMap Event.connStep =
        [.dial "203.0.113.5:22", .close, .dial "203.0.113.6:22", .close] ∧
      stdoutText (EC2SSH (exampleWorld [instBoth "i-1" "203.0.113.5" "10.0.0.5",
        instBoth "i-2" "203.0.113.6" "10.0.0.6"] allUp) (exampleOptions false "uptime")).2 =
        "========== Start output on host: 203.0.113.5 ==========\nup\n" ++
        "========== End   output on host: 203.0.113.5 ==========\n" ++
        "========== Start output on host: 203.0.113.6 ==========\nup\n" ++
        "========== End   output on host: 203.0.113.6 ==========\n" :=
  EC2SSH_batch_success
    (exampleWorld [instBoth "i-1" "203.0.113.5" "10.0.0.5",
      instBoth "i-2" "203.0.113.6" "10.0.0.6"] allUp)
    (exampleOptions false "uptime") "PEM" ⟨"PEM"⟩
    [instBoth "i-1" "203.0.113.5" "10.0.0.5", instBoth "i-2" "203.0.113.6" "10.0.0.6"]
    ["203.0.113.5", "203.0.113.6"]
    (by decide) ⟨rfl, rfl⟩ rfl (by decide) rfl
    (fun n h _ => ⟨⟨⟨10 + n, rfl⟩, ⟨20 + n, rfl⟩, rfl⟩, rfl⟩)

/-- C4: for resolved hosts `[A, B, C]` and a non-empty command, when the run on
`A` succeeds and the command on `B` fails with `e`, `EC2SSH` returns `e` wrapped
as "failed to execute command: <command>"; the writes to standard output are
exactly the start banner, output line and end banner of `A` followed by those of
`B`, so the text starts with the complete block of `A` and nothing is written
for `C`; and the addresses dialed are exactly those of `A` and `B`, so no
connection to `C` is dialed.  Nothing is assumed of the third connection
attempt. -/
theorem EC2SSH_batch_fail_fast (w : World) (options : EC2SSHOptions) (key : String)
    (signer : Signer) (instances : List Instance) (A B C : String) (e : LibError)
    (hcmd : options.Command ≠ "")
    (hload : IdentityLoads w options key signer)
    (hfind : w.FindEC2Instances options.FilterTag false = .ok instances)
    (hres : instances.map (fun i => selectedAddress i options.Private) = [some A, some B, some C])
    (hA : BatchSucceeds (w.ssh 0) w.StdinFd A (sshConfig options.LoginName signer) options.Command)
    (hB : BatchConnects (w.ssh 1) w.StdinFd B (sshConfig options.LoginName signer))
    (hBe : ((w.ssh 1).CombinedOutput options.Command).2 = some e) :
    (EC2SSH w options).1 =
        .err (.Wrap (.lib e) ("failed to execute command: " ++ options.Command)) ∧
      (GoError.Wrap (.lib e) ("failed to execute command: " ++ options.Command)).Error =
        "failed to execute command: " ++ options.Command ++ ": " ++ e.msg ∧
      stdoutWrites (EC2SSH w options).2 =
        ["========== Start output on host: " ++ A ++ " ==========\n",
         ((w.ssh 0).CombinedOutput options.Command).1 ++ "\n",
         "========== End   output on host: " ++ A ++ " ==========\n",
         "========== Start output on host: " ++ B ++ " ==========\n",
         ((w.ssh 1).CombinedOutput options.Command).1 ++ "\n",
         "========== End   output on host: " ++ B ++ " ==========\n"] ∧
      stdoutText (EC2SSH w options).2 =
        hostBlock A ((w.ssh 0).CombinedOutput options.Command).1 ++
          hostBlock B ((w.ssh 1).CombinedOutput options.Command).1 ∧
      dialAddrs (EC2SSH w options).2 = [A ++ ":22", B ++ ":22"] := by
  have hne : instances ≠ [] := by
    intro h; simp [h] at hres
  rw [EC2SSH_batch_eq w options key signer instances [A, B, C] hcmd hload hfind hne
    (by simpa using hres)]
  obtain ⟨a1, a2, _, a4, a5⟩ := executeSSHCommand_projections (w.ssh 0) w.StdinFd A
    (sshConfig options.LoginName signer) options.Command hA.1
  obtain ⟨b1, b2, _, b4, b5⟩ := executeSSHCommand_projections (w.ssh 1) w.StdinFd B
    (sshConfig options.LoginName signer) options.Command hB
  rw [hA.2] at a1
  rw [hBe] at b1
  simp only at a1 b1
  rw [executeLoop_cons_ok w _ _ A [B, C] 0 a1, executeLoop_cons_err w _ _ B [C] 1 _ b1]
  obtain ⟨q1, q2, q3, _⟩ := preamble_projections w options key
  refine ⟨rfl, rfl, ?_, ?_, ?_⟩
  · simp only [stdoutWrites_append, q2, a4, b4, List.nil_append, List.cons_append]
  · simp only [stdoutText_append, q3, a5, b5, String.empty_append]
  · simp only [dialAddrs_append, q1, a2, b2, List.nil_append, List.cons_append]

theorem EC2SSH_batch_fail_fast_witness :
    (EC2SSH (exampleWorld [instBoth "i-1" "203.0.113.5" "10.0.0.5",
        instBoth "i-2" "203.0.113.6" "10.0.0.6", instBoth "i-3" "203.0.113.7" "10.0.0.7"]
        secondFails) (exampleOptions true "uptime")).1 =
      .err (.Wrap (.lib ⟨"Process exited with status 127"⟩) "failed to execute command: uptime") ∧
    dialAddrs (EC2SSH (exampleWorld [instBoth "i-1" "203.0.113.5" "10.0.0.5",
        instBoth "i-2" "203.0.113.6" "10.0.0.6", instBoth "i-3" "203.0.113.7" "10.0.0.7"]
        secondFails) (exampleOptions true "uptime")).2 = ["10.0.0.5:22", "10.0.0.6:22"] :=
  ⟨(EC2SSH_batch_fail_fast
      (exampleWorld [instBoth "i-1" "203.0.113.5" "10.0.0.5",
        instBoth "i-2" "203.0.113.6" "10.0.0.6", instBoth "i-3" "203.0.113.7" "10.0.0.7"]
        secondFails)
      (exampleOptions true "uptime") "PEM" ⟨"PEM"⟩
      [instBoth "i-1" "203.0.113.5" "10.0.0.5", instBoth "i-2" "203.0.113.6" "10.0.0.6",
        instBoth "i-3" "203.0.113.7" "10.0.0.7"]
      "10.0.0.5" "10.0.0.6" "10.0.0.7" ⟨"Process exited with status 127"⟩
      (by decide) ⟨rfl, rfl⟩ rfl rfl
      ⟨⟨⟨10, rfl⟩, ⟨20, rfl⟩, rfl⟩, rfl⟩ ⟨⟨11, rfl⟩, ⟨21, rfl⟩, rfl⟩ rfl).1,
   (EC2SSH_batch_fail_fast
      (exampleWorld [instBoth "i-1" "203.0.113.5" "10.0.0.5",
        instBoth "i-2" "203.0.113.6" "10.0.0.6", instBoth "i-3" "203.0.113.7" "10.0.0.7"]
        secondFails)
      (exampleOptions true "uptime") "PEM" ⟨"PEM"⟩
      [instBoth "i-1" "203.0.113.5" "10.0.0.5", instBoth "i-2" "203.0.113.6" "10.0.0.6",
        instBoth "i-3" "203.0.113.7" "10.0.0.7"]
      "10.0.0.5" "10.0.0.6" "10.0.0.7" ⟨"Process exited with status 127"⟩
      (by decide) ⟨rfl, rfl⟩ rfl rfl
      ⟨⟨⟨10, rfl⟩, ⟨20, rfl⟩, rfl⟩, rfl⟩ ⟨⟨11, rfl⟩, ⟨21, rfl⟩, rfl⟩ rfl).2.2.2.2⟩

/-- C8: in the interactive driver, once the terminal was switched to raw mode
(dial, session open and `MakeRaw` succeeded, `MakeRaw` returning the snapshot
`old`), every exit path restores exactly once, and restores `old`: the only
`Restore` call of the run is `Restore fd old`; the result is the wrapped failure
of the step that failed (pty request, stdin, stdout or stderr pipe, shell start)
or success, whatever `Restore` returns.  On the paths that leave before raw mode
was entered (dial failure, session open failure, `MakeRaw` failure) the run has
no `Restore` call. -/
theorem startSSHSessionWithTerminal_restore_once (sw : SSHWorld) (fd : Int)
    (hostname port : String) (config : ClientConfig) :
    (∀ c s old, sw.Dial "tcp" (hostname ++ ":" ++ port) config = .ok c →
      sw.NewSession = .ok s → sw.MakeRaw fd = .ok old →
      (startSSHSessionWithTerminal sw fd hostname port config).2.filter Event.isRestore =
          [Event.Restore fd old (sw.Restore fd old)] ∧
        (∀ e, sw.RequestPty "xterm" (sw.GetSize fd).2.1 (sw.GetSize fd).1 interactiveModes = some e →
          (startSSHSessionWithTerminal sw fd hostname port config).1 =
            .err (.Wrap (.lib e) "request for pseudo terminal failed:")) ∧
        (sw.RequestPty "xterm" (sw.GetSize fd).2.1 (sw.GetSize fd).1 interactiveModes = none →
          (∀ e, sw.StdinPipe = .error e →
            (startSSHSessionWithTerminal sw fd hostname port config).1 =
              .err (.Wrap (.lib e) "unable to setup stdin for session:")) ∧
          (∀ p1 e, sw.StdinPipe = .ok p1 → sw.StdoutPipe = .error e →
            (startSSHSessionWithTerminal sw fd hostname port config).1 =
              .err (.Wrap (.lib e) "unable to setup stdout for session:")) ∧
          (∀ p1 p2 e, sw.StdinPipe = .ok p1 → sw.StdoutPipe = .ok p2 → sw.StderrPipe = .error e →
            (startSSHSessionWithTerminal sw fd hostname port config).1 =
              .err (.Wrap (.lib e) "unable to setup stderr for session:")) ∧
          (∀ p1 p2 p3 e, sw.StdinPipe = .ok p1 → sw.StdoutPipe = .ok p2 →
            sw.StderrPipe = .ok p3 → sw.Shell = some e →
            (startSSHSessionWithTerminal sw fd hostname port config).1 =
              .err (.Wrap (.lib e) "failed to start shell:")) ∧
          (∀ p1 p2 p3, sw.StdinPipe = .ok p1 → sw.StdoutPipe = .ok p2 →
            sw.StderrPipe = .ok p3 → sw.Shell = none →
            (startSSHSessionWithTerminal sw fd hostname port config).1 = .ok ()))) ∧
    (∀ e, sw.Dial "tcp" (hostname ++ ":" ++ port) config = .error e →
      (startSSHSessionWithTerminal sw fd hostname port config).2.filter Event.isRestore = []) ∧
    (∀ c e, sw.Dial "tcp" (hostname ++ ":" ++ port) config = .ok c → sw.NewSession = .error e →
      (startSSHSessionWithTerminal sw fd hostname port config).2.filter Event.isRestore = []) ∧
    (∀ c s e, sw.Dial "tcp" (hostname ++ ":" ++ port) config = .ok c → sw.NewSession = .ok s →
      sw.MakeRaw fd = .error e →
      (startSSHSessionWithTerminal sw fd hostname port config).2.filter Event.isRestore = []) := by
  refine ⟨?_, ?_, ?_, ?_⟩
  · intro c s old hd hs hr
    refine ⟨?_, ?_, ?_⟩
    · cases hp : sw.RequestPty "xterm" (sw.GetSize fd).2.1 (sw.GetSize fd).1 interactiveModes <;>
        cases h1 : sw.StdinPipe <;> cases h2 : sw.StdoutPipe <;> cases h3 : sw.StderrPipe <;>
        cases h4 : sw.Shell <;>
        simp_all [startSSHSessionWithTerminal, startSSHSessionWithTerminal.body,
          buildSSHSessionPipe, interactiveModes, Event.isRestore]
    · intro e hp
      simp_all [startSSHSessionWithTerminal, startSSHSessionWithTerminal.body, interactiveModes]
    · intro hp
      refine ⟨?_, ?_, ?_, ?_, ?_⟩ <;> intros <;>
        simp_all [startSSHSessionWithTerminal, startSSHSessionWithTerminal.body,
          buildSSHSessionPipe, interactiveModes]
  · intro e hd
    simp_all [startSSHSessionWithTerminal, startSSHSessionWithTerminal.body, Event.isRestore]
  · intro c e hd hs
    simp_all [startSSHSessionWithTerminal, startSSHSessionWithTerminal.body, Event.isRestore]
  · intro c s e hd hs hr
    simp_all [startSSHSessionWithTerminal, startSSHSessionWithTerminal.body, Event.isRestore]

theorem startSSHSessionWithTerminal_restore_once_witness :
    ((startSSHSessionWithTerminal (exampleSSH 10 20 "" none) 0 "203.0.113.5" "22"
          (sshConfig "ec2-user" ⟨"PEM"⟩)).2.filter Event.isRestore =
        [Event.Restore 0 7 (some ⟨"inappropriate ioctl for device"⟩)] ∧
      (startSSHSessionWithTerminal (exampleSSH 10 20 "" none) 0 "203.0.113.5" "22"
          (sshConfig "ec2-user" ⟨"PEM"⟩)).1 = .ok ()) ∧
    ((startSSHSessionWithTerminal (ptyRefused 10 20) 0 "203.0.113.5" "22"
          (sshConfig "ec2-user" ⟨"PEM"⟩)).2.filter Event.isRestore =
        [Event.Restore 0 7 (some ⟨"inappropriate ioctl for device"⟩)] ∧
      (startSSHSessionWithTerminal (ptyRefused 10 20) 0 "203.0.113.5" "22"
          (sshConfig "ec2-user" ⟨"PEM"⟩)).1 =
        .err (.Wrap (.lib ⟨"pty allocation request failed"⟩)
          "request for pseudo terminal failed:")) :=
  ⟨⟨((startSSHSessionWithTerminal_restore_once (exampleSSH 10 20 "" none) 0 "203.0.113.5" "22"
        (sshConfig "ec2-user" ⟨"PEM"⟩)).1 10 20 7 rfl rfl rfl).1,
    (((startSSHSessionWithTerminal_restore_once (exampleSSH 10 20 "" none) 0 "203.0.113.5" "22"
        (sshConfig "ec2-user" ⟨"PEM"⟩)).1 10 20 7 rfl rfl rfl).2.2 rfl).2.2.2.2 1 2 3
          rfl rfl rfl rfl⟩,
   ⟨((startSSHSessionWithTerminal_restore_once (ptyRefused 10 20) 0 "203.0.113.5" "22"
        (sshConfig "ec2-user" ⟨"PEM"⟩)).1 10 20 7 rfl rfl rfl).1,
    ((startSSHSessionWithTerminal_restore_once (ptyRefused 10 20) 0 "203.0.113.5" "22"
        (sshConfig "ec2-user" ⟨"PEM"⟩)).1 10 20 7 rfl rfl rfl).2.1
          ⟨"pty allocation request failed"⟩ rfl⟩⟩

/-- C9 as stated fails: in a run of the interactive driver in which every step
succeeds, raw mode is entered and the teardown order is restore terminal, close
session, close connection, not close session, close connection, restore
terminal. -/
theorem teardown_order_counterexample :
    (exampleSSH 10 20 "" none).MakeRaw 0 = .ok 7 ∧
      teardownOrder (startSSHSessionWithTerminal (exampleSSH 10 20 "" none) 0 "203.0.113.5" "22"
          (sshConfig "ec2-user" ⟨"PEM"⟩)).2 =
        [.restoreTerminal, .sessionClose, .connClose] ∧
      ¬ teardownOrder (startSSHSessionWithTerminal (exampleSSH 10 20 "" none) 0 "203.0.113.5" "22"
          (sshConfig "ec2-user" ⟨"PEM"⟩)).2 =
        [.sessionClose, .connClose, .restoreTerminal] :=
  ⟨rfl, by decide, by decide⟩

/-- C9, amended: on every exit path of the interactive driver reached after raw
mode was entered, the run ends with the three deferred calls in the order
restore terminal mode, close the session, close the connection, and these are
its only teardown calls. -/
theorem startSSHSessionWithTerminal_teardown_order (sw : SSHWorld) (fd : Int)
    (hostname port : String) (config : ClientConfig) (c : Conn) (s : Sess) (old : TermState)
    (hd : sw.Dial "tcp" (hostname ++ ":" ++ port) config = .ok c)
    (hs : sw.NewSession = .ok s)
    (hr : sw.MakeRaw fd = .ok old) :
    teardownOrder (startSSHSessionWithTerminal sw fd hostname port config).2 =
        [.restoreTerminal, .sessionClose, .connClose] ∧
      (startSSHSessionWithTerminal sw fd hostname port config).2 =
        (startSSHSessionWithTerminal.body sw fd hostname port config).2.1 ++
          [Event.Restore fd old (sw.Restore fd old), Event.SessionClose s sw.SessionClose,
           Event.ConnClose c sw.ConnClose] ∧
      teardownOrder (startSSHSessionWithTerminal.body sw fd hostname port config).2.1 = [] := by
  cases hp : sw.RequestPty "xterm" (sw.GetSize fd).2.1 (sw.GetSize fd).1
      [(ECHO, 1), (TTY_OP_ISPEED, 14400), (TTY_OP_OSPEED, 14400)] <;>
    cases h1 : sw.StdinPipe <;> cases h2 : sw.StdoutPipe <;> cases h3 : sw.StderrPipe <;>
    cases h4 : sw.Shell <;>
    simp [startSSHSessionWithTerminal, startSSHSessionWithTerminal.body,
      buildSSHSessionPipe, teardownOrder, Event.teardown, hd, hs, hr, hp, h1, h2, h3, h4]

theorem startSSHSessionWithTerminal_teardown_order_witness :
    teardownOrder (startSSHSessionWithTerminal (ptyRefused 10 20) 0 "203.0.113.5" "22"
        (sshConfig "ec2-user" ⟨"PEM"⟩)).2 = [.restoreTerminal, .sessionClose, .connClose] :=
  (startSSHSessionWithTerminal_teardown_order (ptyRefused 10 20) 0 "203.0.113.5" "22"
    (sshConfig "ec2-user" ⟨"PEM"⟩) 10 20 7 rfl rfl rfl).1

theorem ptyBeforePumps_split :
    ∀ (pre : List Event) (seen : Bool) (d src : Stream) (post : List Event),
      ptyBeforePumps seen (pre ++ Event.GoCopy d src :: post) = true →
      seen = true ∨ ∃ s t h wd m, Event.RequestPty s t h wd m ∈ pre := by
  intro pre
  induction pre with
  | nil =>
    intro seen d src post h
    left
    simp only [List.nil_append, ptyBeforePumps, Bool.and_eq_true] at h
    exact h.1
  | cons x rest ih =>
    intro seen d src post h
    cases x
    case RequestPty s t hh wd m => exact Or.inr ⟨s, t, hh, wd, m, List.mem_cons_self _ _⟩
    case GoCopy d2 s2 =>
      simp only [List.cons_append, ptyBeforePumps, Bool.and_eq_true] at h
      exact Or.inl h.1
    all_goals
      simp only [List.cons_append, ptyBeforePumps] at h
      rcases ih seen d src post h with h1 | ⟨s, t, hh, wd, m, hm⟩
      · exact Or.inl h1
      · exact Or.inr ⟨s, t, hh, wd, m, List.mem_cons_of_mem _ hm⟩

/-- What every run of the interactive driver shows, whichever step fails. -/
theorem startSSHSessionWithTerminal_shape (sw : SSHWorld) (fd : Int)
    (hostname port : String) (config : ClientConfig) :
    dialAddrs (startSSHSessionWithTerminal sw fd hostname port config).2 =
        [hostname ++ ":" ++ port] ∧
      (∀ ev ∈ (startSSHSessionWithTerminal sw fd hostname port config).2, ev.isBatch = false) ∧
      (∀ s t h wd m,
        Event.RequestPty s t h wd m ∈ (startSSHSessionWithTerminal sw fd hostname port config).2 →
        t = "xterm") ∧
      ptyBeforePumps false (startSSHSessionWithTerminal sw fd hostname port config).2 = true ∧
      (∀ d src, Event.GoCopy d src ∈ (startSSHSessionWithTerminal sw fd hostname port config).2 →
        sw.RequestPty "xterm" (sw.GetSize fd).2.1 (sw.GetSize fd).1 interactiveModes = none) := by
  cases hd : sw.Dial "tcp" (hostname ++ ":" ++ port) config
  · simp [startSSHSessionWithTerminal, startSSHSessionWithTerminal.body, dialAddrs,
      Event.dialAddr, Event.isBatch, ptyBeforePumps, hd]
  cases hs : sw.NewSession
  · simp [startSSHSessionWithTerminal, startSSHSessionWithTerminal.body, dialAddrs,
      Event.dialAddr, Event.isBatch, ptyBeforePumps, hd, hs]
  cases hr : sw.MakeRaw fd
  · simp [startSSHSessionWithTerminal, startSSHSessionWithTerminal.body, dialAddrs,
      Event.dialAddr, Event.isBatch, ptyBeforePumps, hd, hs, hr]
  cases hp : sw.RequestPty "xterm" (sw.GetSize fd).2.1 (sw.GetSize fd).1
    [(ECHO, 1), (TTY_OP_ISPEED, 14400), (TTY_OP_OSPEED, 14400)]
  swap
  · simp [startSSHSessionWithTerminal, startSSHSessionWithTerminal.body, dialAddrs,
      Event.dialAddr, Event.isBatch, ptyBeforePumps, hd, hs, hr, hp]
    intros; assumption
  cases h1 : sw.StdinPipe
  · simp [startSSHSessionWithTerminal, startSSHSessionWithTerminal.body, buildSSHSessionPipe,
      dialAddrs, Event.dialAddr, Event.isBatch, ptyBeforePumps, interactiveModes,
      hd, hs, hr, hp, h1]
    intros; assumption
  cases h2 : sw.StdoutPipe
  · simp [startSSHSessionWithTerminal, startSSHSessionWithTerminal.body, buildSSHSessionPipe,
      dialAddrs, Event.dialAddr, Event.isBatch, ptyBeforePumps, interactiveModes,
      hd, hs, hr, hp, h1, h2]
    intros; assumption
  cases h3 : sw.StderrPipe
  · simp [startSSHSessionWithTerminal, startSSHSessionWithTerminal.body, buildSSHSessionPipe,
      dialAddrs, Event.dialAddr, Event.isBatch, ptyBeforePumps, interactiveModes,
      hd, hs, hr, hp, h1, h2, h3]
    intros; assumption
  cases h4 : sw.Shell <;>
    simp [startSSHSessionWithTerminal, startSSHSessionWithTerminal.body, buildSSHSessionPipe,
      dialAddrs, Event.dialAddr, Event.isBatch, ptyBeforePumps, interactiveModes,
      hd, hs, hr, hp, h1, h2, h3, h4] <;>
      (intros; assumption)

theorem EC2SSH_interactive_eq (w : World) (options : EC2SSHOptions) (key : String)
    (signer : Signer) (inst : Instance) (a : String)
    (hcmd : options.Command = "")
    (hload : IdentityLoads w options key signer)
    (hfind : w.FindEC2Instances options.FilterTag false = .ok [inst])
    (haddr : selectedAddress inst options.Private = some a) :
    EC2SSH w options =
      ((startSSHSessionWithTerminal (w.ssh 0) w.StdinFd a "22"
          (sshConfig options.LoginName signer)).1,
        preamble w options key ++
          (startSSHSessionWithTerminal (w.ssh 0) w.StdinFd a "22"
            (sshConfig options.LoginName signer)).2) := by
  rw [EC2SSH_eq_afterFind w options key signer [inst] hload hfind]
  have hres : EC2SSH.resolveLoop options.Private [inst] [] = .ok [a] := by
    simpa using resolveLoop_all options.Private [inst] [a] [] (by simp [haddr])
  simp [EC2SSH.afterFind, hcmd, hres]

/-- C6: for a request with an empty command, a loaded identity file and a
directory answer of exactly one instance with selected address `a`, `EC2SSH`
runs the interactive driver on `a`: the only address dialed is `a:22`, dialed
once; no call of the batch executor (command run, write to standard output) is
made; a pty request, if made, asks for "xterm"; every started byte-copy pump is
preceded in the run by the pty request, and that request succeeded; and when
every setup step succeeds the run is the full sequence dial, session, raw mode,
size, pty, pipes and pumps, shell, wait, followed by the deferred calls, and
the result is success whatever `Wait` returns. -/
theorem EC2SSH_interactive (w : World) (options : EC2SSHOptions) (key : String)
    (signer : Signer) (inst : Instance) (a : String)
    (hcmd : options.Command = "")
    (hload : IdentityLoads w options key signer)
    (hfind : w.FindEC2Instances options.FilterTag false = .ok [inst])
    (haddr : selectedAddress inst options.Private = some a) :
    dialAddrs (EC2SSH w options).2 = [a ++ ":22"] ∧
      (∀ ev ∈ (EC2SSH w options).2, ev.isBatch = false) ∧
      (∀ s t h wd m, Event.RequestPty s t h wd m ∈ (EC2SSH w options).2 → t = "xterm") ∧
      (∀ pre d src post, (EC2SSH w options).2 = pre ++ Event.GoCopy d src :: post →
        (∃ s h wd m, Event.RequestPty s "xterm" h wd m ∈ pre) ∧
          (w.ssh 0).RequestPty "xterm" ((w.ssh 0).GetSize w.StdinFd).2.1
            ((w.ssh 0).GetSize w.StdinFd).1 interactiveModes = none) ∧
      (∀ c s old p1 p2 p3,
        (w.ssh 0).Dial "tcp" (a ++ ":" ++ "22") (sshConfig options.LoginName signer) = .ok c →
        (w.ssh 0).NewSession = .ok s →
        (w.ssh 0).MakeRaw w.StdinFd = .ok old →
        (w.ssh 0).RequestPty "xterm" ((w.ssh 0).GetSize w.StdinFd).2.1
          ((w.ssh 0).GetSize w.StdinFd).1 interactiveModes = none →
        (w.ssh 0).StdinPipe = .ok p1 → (w.ssh 0).StdoutPipe = .ok p2 →
        (w.ssh 0).StderrPipe = .ok p3 → (w.ssh 0).Shell = none →
        EC2SSH w options =
          (.ok (),
            preamble w options key ++
              [Event.Dial "tcp" (a ++ ":22") (sshConfig options.LoginName signer),
               Event.NewSession c, Event.MakeRaw w.StdinFd, Event.GetSize w.StdinFd,
               Event.RequestPty s "xterm" ((w.ssh 0).GetSize w.StdinFd).2.1
                 ((w.ssh 0).GetSize w.StdinFd).1 interactiveModes,
               Event.StdinPipe s, Event.GoCopy (.pipe p1) .osStdin,
               Event.StdoutPipe s, Event.GoCopy .osStdout (.pipe p2),
               Event.StderrPipe s, Event.GoCopy .osStderr (.pipe p3),
               Event.Shell s, Event.Wait s (w.ssh 0).Wait,
               Event.Restore w.StdinFd old ((w.ssh 0).Restore w.StdinFd old),
               Event.SessionClose s (w.ssh 0).SessionClose,
               Event.ConnClose c (w.ssh 0).ConnClose])) := by
  have hrun := EC2SSH_interactive_eq w options key signer inst a hcmd hload hfind haddr
  obtain ⟨s1, s2, s3, s4, s5⟩ := startSSHSessionWithTerminal_shape (w.ssh 0) w.StdinFd a "22"
    (sshConfig options.LoginName signer)
  obtain ⟨q1, _, _, _⟩ := preamble_projections w options key
  have hxterm : ∀ s t h wd m, Event.RequestPty s t h wd m ∈ (EC2SSH w options).2 →
      t = "xterm" := by
    intro s t h wd m hmem
    rw [hrun] at hmem
    rcases List.mem_append.mp hmem with hm | hm
    · simp [preamble] at hm
    · exact s3 s t h wd m hm
  refine ⟨?_, ?_, hxterm, ?_, ?_⟩
  · rw [hrun]
    simp only [dialAddrs_append, q1, s1, List.nil_append, addr_port]
  · rw [hrun]
    intro ev hev
    rcases List.mem_append.mp hev with hm | hm
    · exact (preamble_quiet w options key ev hm).2.2
    · exact s2 ev hm
  · intro pre d src post hsplit
    have hmem : Event.GoCopy d src ∈ (EC2SSH w options).2 := by
      rw [hsplit]; simp
    have hcheck : ptyBeforePumps false (EC2SSH w options).2 = true := by
      rw [hrun]
      simpa [preamble, ptyBeforePumps] using s4
    rw [hsplit] at hcheck
    refine ⟨?_, ?_⟩
    · rcases ptyBeforePumps_split pre false d src post hcheck with h | ⟨s, t, h, wd, m, hm⟩
      · simp at h
      · have ht : t = "xterm" := hxterm s t h wd m (by rw [hsplit]; simp [hm])
        subst ht
        exact ⟨s, h, wd, m, hm⟩
    · rw [hrun] at hmem
      rcases List.mem_append.mp hmem with hm | hm
      · simp [preamble] at hm
      · exact s5 d src hm
  · intro c s old p1 p2 p3 hd hs hr hp h1 h2 h3 h4
    rw [hrun]
    simp only [interactiveModes] at hp
    simp [startSSHSessionWithTerminal, startSSHSessionWithTerminal.body, buildSSHSessionPipe,
      interactiveModes, hd, hs, hr, hp, h1, h2, h3, h4, ← addr_port]

theorem EC2SSH_interactive_witness :
    EC2SSH (exampleWorld [instPrivateOnly "i-1" "203.0.113.5"] allUp) (exampleOptions true "") =
      (.ok (),
        [Event.Getenv "HOME", Event.ReadFile "/home/u/.ssh/id_rsa", Event.ParsePrivateKey "PEM",
         Event.FindEC2Instances "web" false,
         Event.Dial "tcp" "203.0.113.5:22" (sshConfig "ec2-user" ⟨"PEM"⟩),
         Event.NewSession 10, Event.MakeRaw 0, Event.GetSize 0,
         Event.RequestPty 20 "xterm" 24 80 [(53, 1), (128, 14400), (129, 14400)],
         Event.StdinPipe 20, Event.GoCopy (.pipe 1) .osStdin,
         Event.StdoutPipe 20, Event.GoCopy .osStdout (.pipe 2),
         Event.StderrPipe 20, Event.GoCopy .osStderr (.pipe 3),
         Event.Shell 20, Event.Wait 20 (some ⟨"Process exited with status 1"⟩),
         Event.Restore 0 7 (some ⟨"inappropriate ioctl for device"⟩),
         Event.SessionClose 20 none, Event.ConnClose 10 none]) :=
  (EC2SSH_interactive (exampleWorld [instPrivateOnly "i-1" "203.0.113.5"] allUp)
    (exampleOptions true "") "PEM" ⟨"PEM"⟩ (instPrivateOnly "i-1" "203.0.113.5") "203.0.113.5"
    rfl ⟨rfl, rfl⟩ rfl rfl).2.2.2.2 10 20 7 1 2 3 rfl rfl rfl rfl rfl rfl rfl rfl

theorem replaceFirstChars_leading (old new rest : List Char) (hne : old ≠ []) :
    replaceFirstChars old new (old ++ rest) = new ++ rest := by
  cases old with
  | nil => exact absurd rfl hne
  | cons c cs =>
    have hp : (c :: cs).isPrefixOf (c :: (cs ++ rest)) = true := by
      simp
    simp only [List.cons_append, replaceFirstChars, hp, if_true]
    simp

/-- What the code does for a path with a leading "~": the path read is the home
directory followed by the rest of the path. -/
theorem stringsReplaceOnce_leading_tilde (rest home : String) :
    stringsReplaceOnce ("~" ++ rest) "~" home = home ++ rest := by
  have h := replaceFirstChars_leading "~".data home.data rest.data (by decide)
  apply String.ext
  simpa [stringsReplaceOnce] using h

/-- What the code does for a path without "~": the path is read as given. -/
theorem stringsReplaceOnce_no_tilde (p home : String) (h : '~' ∉ p.data) :
    stringsReplaceOnce p "~" home = p := by
  have key : ∀ l : List Char, '~' ∉ l → replaceFirstChars ['~'] home.data l = l := by
    intro l
    induction l with
    | nil => intro _; rfl
    | cons c cs ih =>
      intro hl
      have hc : ¬ '~' = c := fun hc => hl (by rw [hc]; exact List.mem_cons_self _ _)
      have hcs : '~' ∉ cs := fun hm => hl (List.mem_cons_of_mem _ hm)
      simp [replaceFirstChars, List.isPrefixOf, hc, ih hcs]
  apply String.ext
  simpa [stringsReplaceOnce] using key p.data h

/-- C7 fails on the code: with home directory `/home/u`, the identity file
`./id_rsa~`, which does not start with "~", is not read as given; the file read
is `./id_rsa/home/u`. -/
theorem buildSSHConfig_expands_inner_tilde :
    (buildSSHConfig (exampleWorld [] allUp) "ec2-user" "./id_rsa~").2 =
        [Event.Getenv "HOME", Event.ReadFile "./id_rsa/home/u", Event.ParsePrivateKey "PEM"] ∧
      ¬ Event.ReadFile "./id_rsa~" ∈
        (buildSSHConfig (exampleWorld [] allUp) "ec2-user" "./id_rsa~").2 := by
  decide

theorem lookup_isSome_iff (table : List (String × Formatter)) (name : String) :
    (table.lookup name).isSome = true ↔ name ∈ table.map Prod.fst := by
  induction table with
  | nil => simp [List.lookup]
  | cons entry rest ih =>
    obtain ⟨k, fn⟩ := entry
    by_cases hk : name = k
    · subst hk
      simp only [List.lookup, beq_self_eq_true, Option.isSome_some, List.map_cons,
        List.mem_cons, true_or]
    · have hb : (name == k) = false := by simpa using hk
      simp only [List.lookup, hb, List.map_cons, List.mem_cons, hk, false_or]
      exact ih

theorem formatFuncs_lookup_isSome (timeFormat : Time → String → String) (name : String) :
    ((formatFuncs timeFormat).lookup name).isSome = true ↔ name ∈ formatKeys := by
  rw [lookup_isSome_iff]
  rfl

theorem formatLoop_outputs (timeFormat : Time → String → String) (client : Client)
    (options : EC2RILsOptions) (inst : ReservedInstances) (value : String → String) :
    ∀ (fields output : List String),
      (∀ f ∈ fields, ∃ fn, (formatFuncs timeFormat).lookup f = some fn ∧
        fn client options inst = .ok (value f)) →
      formatEC2RIInstance.loop timeFormat client options inst fields output =
        .ok (output ++ fields.map value) := by
  intro fields
  induction fields with
  | nil => intro output _; simp [formatEC2RIInstance.loop]
  | cons f rest ih =>
    intro output h
    obtain ⟨fn, hfn, hval⟩ := h f (List.mem_cons_self _ _)
    rw [formatEC2RIInstance.loop, hfn]
    simp only [hval]
    rw [ih (output ++ [value f]) (fun g hg => h g (List.mem_cons_of_mem _ hg))]
    simp

/-- C10: `formatEC2RIInstance` looks each selected field name up in a table
whose keys are exactly the nine names ReservedInstancesId, AvailabilityZone,
InstanceType, InstanceCount, State, Scope, Start, End, Duration, and calls what
it finds.  With `Quiet` false, when every name in `Fields` is one of the nine
keys and the formatter of each returns (`value f` for field `f`), the result is
those outputs joined by tab characters in the order of `Fields`.  With `Quiet`
true the only selected name is "InstanceId", which is not a key, and formatting
panics for every reserved instance instead of returning a string. -/
theorem formatEC2RIInstance_table (timeFormat : Time → String → String) (client : Client) :
    (formatFuncs timeFormat).map Prod.fst = formatKeys ∧
      (∀ name, ((formatFuncs timeFormat).lookup name).isSome = true ↔ name ∈ formatKeys) ∧
      (∀ (options : EC2RILsOptions) (inst : ReservedInstances) (value : String → String),
        options.Quiet = false →
        (∀ f ∈ options.Fields, f ∈ formatKeys) →
        (∀ f ∈ options.Fields, ∀ fn, (formatFuncs timeFormat).lookup f = some fn →
          fn client options inst = .ok (value f)) →
        formatEC2RIInstance timeFormat client options inst =
          .ok (String.intercalate "\t" (options.Fields.map value))) ∧
      (∀ (options : EC2RILsOptions) (inst : ReservedInstances),
        options.Quiet = true →
        formatEC2RIInstance timeFormat client options inst = .panic nilDeref) := by
  refine ⟨rfl, formatFuncs_lookup_isSome timeFormat, ?_, ?_⟩
  · intro options inst value hq hkeys hvals
    have hall : ∀ f ∈ options.Fields, ∃ fn, (formatFuncs timeFormat).lookup f = some fn ∧
        fn client options inst = .ok (value f) := by
      intro f hf
      have hs := (formatFuncs_lookup_isSome timeFormat f).mpr (hkeys f hf)
      obtain ⟨fn, hfn⟩ := Option.isSome_iff_exists.mp hs
      exact ⟨fn, hfn, hvals f hf fn hfn⟩
    simp [formatEC2RIInstance, hq,
      formatLoop_outputs timeFormat client options inst value options.Fields [] hall]
  · intro options inst hq
    have hnone : (formatFuncs timeFormat).lookup "InstanceId" = none := by
      cases h : (formatFuncs timeFormat).lookup "InstanceId" with
      | none => rfl
      | some fn =>
        have hs : ((formatFuncs timeFormat).lookup "InstanceId").isSome = true := by simp [h]
        have hmem := (formatFuncs_lookup_isSome timeFormat "InstanceId").mp hs
        exact absurd hmem (by decide)
    simp [formatEC2RIInstance, hq, formatEC2RIInstance.loop, hnone]

theorem formatEC2RIInstance_table_witness :
    formatEC2RIInstance exampleTimeFormat exampleClient
        { All := false, Quiet := false,
          Fields := ["ReservedInstancesId", "AvailabilityZone", "InstanceCount", "Duration"] }
        exampleRI = .ok "ri-1\tN/A\t  2\t 1year" ∧
      formatEC2RIInstance exampleTimeFormat exampleClient
        { All := false, Quiet := true, Fields := ["ReservedInstancesId"] } exampleRI =
        .panic nilDeref :=
  ⟨(formatEC2RIInstance_table exampleTimeFormat exampleClient).2.2.1
      { All := false, Quiet := false,
        Fields := ["ReservedInstancesId", "AvailabilityZone", "InstanceCount", "Duration"] }
      exampleRI
      (fun f => if f = "ReservedInstancesId" then "ri-1" else if f = "AvailabilityZone" then "N/A"
        else if f = "InstanceCount" then "  2" else " 1year")
      rfl (by decide) (by decide),
   (formatEC2RIInstance_table exampleTimeFormat exampleClient).2.2.2
      { All := false, Quiet := true, Fields := ["ReservedInstancesId"] } exampleRI rfl⟩

end Myaws
